import Mathlib

/-!
Verification of the `test_repo_action` Kubernetes action callbacks.

The development shallowly embeds the two source files:
  * `src/test_repo_action/git_push.py` (Git audit of resource changes)
  * `src/test_repo_action/HPA.py` (HPA scale / limit-reached handlers)

Handlers are modelled as pure functions from the event and parameter
records to the list of externally observable effects they perform
(log lines, Git operations, Kubernetes API calls, emitted Findings),
in the order the Python code performs them.  External library calls
(hikaru serialization, the robusta diff helpers, Git plumbing) are
modelled by explicit Lean functions; each such model carries a doc
comment saying what it stands for.
-/

namespace GitPush

/-- Python exceptions relevant to the embedded code. -/
inductive PyExc
  | attributeError
deriving DecidableEq

/-- Log levels used by the `logging` calls in the source. -/
inductive LogLevel
  | info
  | error
deriving DecidableEq

/-- Observable effects of `git_push_changes`: log lines and the Git
repository operations `pull_rebase`, `delete_push`, `commit_push`. -/
inductive Effect
  | log (lvl : LogLevel) (msg : String)
  | pull_rebase
  | delete_push (path : String) (file_name : String) (message : String) (cluster : String)
  | commit_push (contents : String) (path : String) (file_name : String) (message : String) (cluster : String)
deriving DecidableEq

/-- A Kubernetes spec, modelled as an association list from attribute
paths to values.  Only its diff behaviour matters to the claims. -/
abbrev Spec := List (String × String)

/-- The relevant fields of a Kubernetes `ObjectMeta`.  `ns` stands for
the `namespace` field (a Lean keyword); it is `Option` because the
Python attribute may be `None`.  Owner references are modelled as
opaque strings: only whether the list is empty matters. -/
structure ObjectMeta where
  name : String
  ns : Option String
  ownerReferences : List String
deriving DecidableEq

/-- The relevant fields of a Kubernetes object as seen by `git_push_changes`. -/
structure K8sObj where
  kind : String
  metadata : ObjectMeta
  spec : Spec
deriving DecidableEq

/-- The operation kind carried by a change event. -/
inductive K8sOperationType
  | CREATE
  | DELETE
  | UPDATE
deriving DecidableEq

/-- A `KubernetesAnyChangeEvent`: the current object, the previous
object (absent on create), and the operation kind. -/
structure KubernetesAnyChangeEvent where
  obj : K8sObj
  old_obj : Option K8sObj
  operation : K8sOperationType
deriving DecidableEq

/-- `GitAuditParams`.  `git_key` holds the decoded (plaintext) secret:
`post_initialization` base64-decodes the configured value, so after
construction `git_key.get_secret_value()` is the plaintext key. -/
structure GitAuditParams where
  cluster_name : String
  git_url : String
  git_key : String
  ignored_changes : List String
deriving DecidableEq

/-- Characters allowed by the regex class `[0-9a-zA-Z\-]` of
`git_safe_name`. -/
def gitSafeChar (c : Char) : Bool :=
  decide (('0' ≤ c ∧ c ≤ '9') ∨ ('a' ≤ c ∧ c ≤ 'z') ∨ ('A' ≤ c ∧ c ≤ 'Z') ∨ c = '-')

/-- Helper for `re.sub("[^0-9a-zA-Z\\-]+", "-", ·)`: the flag records
whether the previous character belonged to a run of characters outside
the class (whose replacement `'-'` has already been emitted). -/
def subRunsAux (inRun : Bool) : List Char → List Char
  | [] => []
  | c :: cs =>
    if gitSafeChar c then c :: subRunsAux false cs
    else if inRun then subRunsAux true cs
    else '-' :: subRunsAux true cs

/-- `re.sub("[^0-9a-zA-Z\\-]+", "-", ·)` on the character list: each
maximal run of characters outside the class is replaced by one `'-'`. -/
def subRuns (l : List Char) : List Char :=
  subRunsAux false l

/-- `git_safe_name` from `git_push.py`. -/
def git_safe_name (name : String) : String :=
  String.mk (subRuns name.data)

/-- Follows the spec's words for `git_safe_name`: each maximal run of
characters outside `[0-9a-zA-Z-]` is replaced by a single hyphen.
Maximality is expressed directly: on meeting an unsafe character, one
`'-'` is emitted and the whole remaining run is skipped with
`dropWhile`.  To be compared with the source-derived `subRuns`. -/
def subRunsSpec : List Char → List Char
  | [] => []
  | c :: cs =>
    if gitSafeChar c then c :: subRunsSpec cs
    else '-' :: subRunsSpec (cs.dropWhile (fun d => !gitSafeChar d))
termination_by l => l.length
decreasing_by
  · simp_wf
  · simp_wf
    have h : (cs.dropWhile (fun d => !gitSafeChar d)).length ≤ cs.length :=
      (List.dropWhile_suffix (fun d => !gitSafeChar d)).length_le
    omega

/-- `skipped_kinds` from `git_push.py` (kinds with no `spec`). -/
def skipped_kinds : List String :=
  ["Event", "ClusterRole", "ClusterRoleBinding", "ServiceAccount", "ConfigMap"]

/-- Models the robusta helper `is_matching_diff(x, ignored_changes)`:
whether a diff entry's attribute path matches one of the configured
patterns.  Pattern matching is modelled as literal path equality. -/
def is_matching_diff (x : String) (ignored_changes : List String) : Bool :=
  ignored_changes.contains x

/-- Models hikaru's `spec.diff(old_spec)`: the attribute paths on which
the two specs disagree (changed or present on only one side). -/
def spec_diff (spec old_spec : Spec) : List String :=
  (spec.filter (fun kv => old_spec.lookup kv.1 ≠ some kv.2)).map (fun kv => kv.1)
    ++ (old_spec.filter (fun kv => spec.lookup kv.1 = none)).map (fun kv => kv.1)

/-- `obj_diff` from `git_push.py`: a missing old spec counts as a
change; otherwise the diff entries matching `ignored_changes` are
filtered out and the result says whether any diff remains. -/
def obj_diff (spec : Spec) (old_spec : Option Spec) (ignored_changes : List String) : Bool :=
  match old_spec with
  | none => true
  | some old =>
    let all_diffs := spec_diff spec old
    let filtered_diffs := all_diffs.filter (fun x => !is_matching_diff x ignored_changes)
    decide (filtered_diffs.length > 0)

/-- Models `hikaru.get_yaml(obj)`: serializes a Kubernetes object to a
YAML **string** (its return type in hikaru is `str`).  The exact text
is irrelevant to the claims; only its being a string matters. -/
def get_yaml (obj : K8sObj) : String :=
  "kind: " ++ obj.kind ++ "\nname: " ++ obj.metadata.name

/-- Models the attribute access `.items()` on the value returned by
`hikaru.get_yaml`: a Python `str` has no `items` method, so
`hikaru.get_yaml(event.obj).items()` raises `AttributeError`. -/
def str_items (_ : String) : Except PyExc (List (String × String)) :=
  Except.error PyExc.attributeError

/-- Models `hikaru.get_yaml` applied to a plain `dict` (the filtered
comprehension result): `get_yaml` requires a `HikaruBase`, so a plain
dict raises `AttributeError`.  (Unreachable: `str_items` raises first.) -/
def get_yaml_dict (_ : List (String × String)) : Except PyExc String :=
  Except.error PyExc.attributeError

/-- Models Python `x or d` for an optional string: both `None` and the
empty string are falsy. -/
def pyOrStr : Option String → String → String
  | some s, d => if s = "" then d else s
  | none, d => d

/-- Python `s.partition(sep)[2]` on the character list: everything
after the first occurrence of `sep`, `[]` when `sep` is absent. -/
def partitionAfter (sep : Char) : List Char → List Char
  | [] => []
  | c :: cs => if c = sep then cs else partitionAfter sep cs

/-- Python `s.partition(sep)[2]` as a string function. -/
def pyPartition2 (s : String) (sep : Char) : String :=
  String.mk (partitionAfter sep s.data)

/-- Python's substring test `needle in hay` on character lists. -/
def containsSub (needle : List Char) : List Char → Bool
  | [] => needle.isEmpty
  | c :: cs => needle.isPrefixOf (c :: cs) || containsSub needle cs

/-- ASCII lower-casing of one character, as Python `str.lower` does on
the ASCII names occurring here. -/
def pyLowerChar (c : Char) : Char :=
  if 'A' ≤ c ∧ c ≤ 'Z' then Char.ofNat (c.toNat + 32) else c

/-- Python `s.lower()`. -/
def pyLower (s : String) : String :=
  String.mk (s.data.map pyLowerChar)

/-- The body of the `try:` block of `git_push_changes`, line by line.
Returns the effects performed and the exception raised, if any.
`GitRepoManager.get_git_repo` performs no modelled effect. -/
def git_push_changes_body (event : KubernetesAnyChangeEvent) (action_params : GitAuditParams) :
    List Effect × Option PyExc :=
  if skipped_kinds.contains event.obj.kind then ([], none)
  else if event.obj.metadata.ownerReferences.length != 0 then ([], none)
  else
    let keyLog := Effect.log LogLevel.info ("Key value: " ++ action_params.git_key)
    let name := git_safe_name event.obj.metadata.name ++ ".yaml"
    let ns := pyOrStr event.obj.metadata.ns "None"
    let new_name := pyPartition2 name '-'
    let findList := new_name
    let path :=
      if containsSub "api".data (pyLower findList).data then
        git_safe_name ns ++ "/" ++ "api" ++ "/" ++ git_safe_name new_name ++ "/" ++ "main" ++ "/" ++ "patches"
      else
        git_safe_name ns ++ "/" ++ "consumer" ++ "/" ++ git_safe_name new_name ++ "/" ++ "main" ++ "/" ++ "patches"
    let pre : List Effect :=
      [keyLog, Effect.pull_rebase, Effect.log LogLevel.info "Pulling possible changes"]
    match event.operation with
    | K8sOperationType.DELETE =>
      (pre ++ [Effect.delete_push path name ("Delete " ++ path ++ "/" ++ name) action_params.cluster_name], none)
    | K8sOperationType.CREATE =>
      let obj_yaml := get_yaml event.obj
      (pre ++ [Effect.commit_push obj_yaml path name
        ("Create " ++ event.obj.kind ++ " named " ++ event.obj.metadata.name ++ " on namespace " ++ ns)
        action_params.cluster_name], none)
    | K8sOperationType.UPDATE =>
      let old_spec := match event.old_obj with
        | some o => some o.spec
        | none => none
      if obj_diff event.obj.spec old_spec action_params.ignored_changes then
        match str_items (get_yaml event.obj) with
        | Except.error e => (pre, some e)
        | Except.ok items =>
          let skipped_fields := ["annotations", "creationTimestamp", "managedFields"]
          let obj_yaml := items.filter (fun kv => !skipped_fields.contains kv.1)
          match get_yaml_dict obj_yaml with
          | Except.error e => (pre, some e)
          | Except.ok filtered_yaml =>
            (pre ++ [Effect.commit_push filtered_yaml path name
              ("Update " ++ event.obj.kind ++ " named " ++ event.obj.metadata.name ++ " on namespace " ++ ns)
              action_params.cluster_name], none)
      else (pre, none)

/-- `git_push_changes` from `git_push.py`: the `try:` body, with any
exception caught at the top level and logged as `"git audit error"`. -/
def git_push_changes (event : KubernetesAnyChangeEvent) (action_params : GitAuditParams) :
    List Effect :=
  match git_push_changes_body event action_params with
  | (tr, none) => tr
  | (tr, some _) => tr ++ [Effect.log LogLevel.error "git audit error"]

/-- The full Git file paths (`path ++ "/" ++ file_name`) touched by the
Git write operations in an effect trace. -/
def filePathsOf (tr : List Effect) : List String :=
  tr.filterMap (fun e => match e with
    | Effect.commit_push _ p n _ _ => some (p ++ "/" ++ n)
    | Effect.delete_push p n _ _ => some (p ++ "/" ++ n)
    | _ => none)

end GitPush

namespace HpaActions

/-- Severities of the Findings emitted by `HPA.py`. -/
inductive FindingSeverity
  | INFO
  | LOW
deriving DecidableEq

/-- Sources of the Findings emitted by `HPA.py`. -/
inductive FindingSource
  | PROMETHEUS
  | KUBERNETES_API_SERVER
deriving DecidableEq

/-- An enrichment block.  `pyNone` is the Python `None` value: it lands
in the block list because `scale_hpa_callback_2(event, param)` is
called while building the list and returns `None`. -/
inductive Block
  | MarkdownBlock (text : String)
  | pyNone
deriving DecidableEq

/-- A Finding record; `enrichments` collects the block lists passed to
`add_enrichment`. -/
structure Finding where
  title : String
  severity : FindingSeverity
  source : FindingSource
  aggregation_key : String
  enrichments : List (List Block)
deriving DecidableEq

/-- The metadata fields of an HPA used by `HPA.py`.  `ns` stands for
the `namespace` field (a Lean keyword). -/
structure HpaMeta where
  name : String
  ns : String
deriving DecidableEq

/-- The `spec` fields of an HPA used by `HPA.py`. -/
structure HPASpec where
  maxReplicas : Int
deriving DecidableEq

/-- The `status` fields of an HPA used by `HPA.py`.
`currentCPUUtilizationPercentage` is already the integer the code
obtains with `int(...)`. -/
structure HPAStatus where
  currentReplicas : Int
  desiredReplicas : Int
  currentCPUUtilizationPercentage : Int
deriving DecidableEq

/-- A HorizontalPodAutoscaler object. -/
structure HorizontalPodAutoscaler where
  metadata : HpaMeta
  spec : HPASpec
  status : HPAStatus
deriving DecidableEq

/-- A `HorizontalPodAutoscalerEvent`; `hpa` is what the framework's
`get_horizontalpodautoscaler()` returns (the event's HPA, or `None`). -/
structure HorizontalPodAutoscalerEvent where
  hpa : Option HorizontalPodAutoscaler
deriving DecidableEq

/-- `event.get_horizontalpodautoscaler()`. -/
def HorizontalPodAutoscalerEvent.get_horizontalpodautoscaler
    (e : HorizontalPodAutoscalerEvent) : Option HorizontalPodAutoscaler :=
  e.hpa

/-- A `HorizontalPodAutoscalerChangeEvent`: the current and previous
HPA objects. -/
structure HorizontalPodAutoscalerChangeEvent where
  obj : HorizontalPodAutoscaler
  old_obj : HorizontalPodAutoscaler
deriving DecidableEq

/-- `ScaleHPAParams` from `HPA.py`. -/
structure ScaleHPAParams where
  max_replicas : Int
deriving DecidableEq

/-- `HPALimitParams` from `HPA.py` (`increase_pct` defaults to 20). -/
structure HPALimitParams where
  increase_pct : Int := 20
deriving DecidableEq

/-- Observable effects of the HPA handlers: log lines, the
`replaceNamespacedHorizontalPodAutoscaler` API call (with the object
state being persisted), and Findings added to the event. -/
inductive HpaEffect
  | log (msg : String)
  | replaceNamespacedHorizontalPodAutoscaler (name : String) (ns : String)
      (hpa : HorizontalPodAutoscaler)
  | finding (f : Finding)
deriving DecidableEq

/-- Models Python `str(event)` in the missing-HPA log line; the exact
text is irrelevant to the claims. -/
def eventStr (_ : HorizontalPodAutoscalerEvent) : String :=
  "<HorizontalPodAutoscalerEvent>"

/-- Python `ceil(k / 100)` for an integer `k`: the source computes
`(increase_pct + 100) * maxReplicas` exactly as a Python int, divides
by `100` (float division) and applies `math.ceil`.  This is modelled
as the exact ceiling of `k / 100`, computed over ℤ; it agrees with the
float computation for every `|k| < 2^53`, far beyond any replica
count. -/
def mathCeilDiv100 (k : Int) : Int :=
  -((-k) / 100)

/-- `scale_hpa_callback` from `HPA.py`: set `spec.maxReplicas`, persist
via the cluster API, and add one INFO Finding. -/
def scale_hpa_callback (event : HorizontalPodAutoscalerEvent) (params : ScaleHPAParams) :
    List HpaEffect :=
  match event.get_horizontalpodautoscaler with
  | none => [HpaEffect.log ("scale_hpa_callback - no hpa on event: " ++ eventStr event)]
  | some hpa0 =>
    let hpa := { hpa0 with spec := { hpa0.spec with maxReplicas := params.max_replicas } }
    [HpaEffect.replaceNamespacedHorizontalPodAutoscaler hpa.metadata.name hpa.metadata.ns hpa,
     HpaEffect.finding
       { title := "Max replicas for HPA *" ++ hpa.metadata.name ++ "* in namespace *"
           ++ hpa.metadata.ns ++ "* updated to: *" ++ toString params.max_replicas ++ "*",
         severity := FindingSeverity.INFO,
         source := FindingSource.PROMETHEUS,
         aggregation_key := "scale_hpa_callback",
         enrichments := [] }]

/-- `scale_hpa_callback_2` from `HPA.py`: identical to
`scale_hpa_callback` except for the aggregation key. -/
def scale_hpa_callback_2 (event : HorizontalPodAutoscalerEvent) (params : ScaleHPAParams) :
    List HpaEffect :=
  match event.get_horizontalpodautoscaler with
  | none => [HpaEffect.log ("scale_hpa_callback - no hpa on event: " ++ eventStr event)]
  | some hpa0 =>
    let hpa := { hpa0 with spec := { hpa0.spec with maxReplicas := params.max_replicas } }
    [HpaEffect.replaceNamespacedHorizontalPodAutoscaler hpa.metadata.name hpa.metadata.ns hpa,
     HpaEffect.finding
       { title := "Max replicas for HPA *" ++ hpa.metadata.name ++ "* in namespace *"
           ++ hpa.metadata.ns ++ "* updated to: *" ++ toString params.max_replicas ++ "*",
         severity := FindingSeverity.INFO,
         source := FindingSource.PROMETHEUS,
         aggregation_key := "scale_hpa_callback_2",
         enrichments := [] }]

/-- `alert_on_hpa_reached_limit_2` from `HPA.py`.  When it fires it
builds the alert Finding, then while constructing the enrichment block
list it immediately calls `scale_hpa_callback_2(event, param)` (whose
effects therefore happen before the alert Finding is added and whose
`None` result lands in the block list), and finally adds the alert
Finding. -/
def alert_on_hpa_reached_limit_2 (event : HorizontalPodAutoscalerChangeEvent)
    (action_params : HPALimitParams) : List HpaEffect :=
  let logline := HpaEffect.log ("running alert_on_hpa_reached_limit: "
    ++ event.obj.metadata.name ++ " ns: " ++ event.obj.metadata.ns)
  let hpa := event.obj
  if hpa.status.currentReplicas = event.old_obj.status.currentReplicas then
    [logline]
  else if hpa.status.desiredReplicas ≠ hpa.spec.maxReplicas then
    [logline]
  else
    let avg_cpu := hpa.status.currentCPUUtilizationPercentage
    let new_max_replicas_suggestion : Int :=
      mathCeilDiv100 ((action_params.increase_pct + 100) * hpa.spec.maxReplicas)
    let param : ScaleHPAParams := { max_replicas := new_max_replicas_suggestion }
    let finding : Finding :=
      { title := "HPA-TEST *" ++ event.obj.metadata.name ++ "* in namespace *"
          ++ event.obj.metadata.ns ++ "* reached max replicas: *"
          ++ toString hpa.spec.maxReplicas ++ "*",
        severity := FindingSeverity.LOW,
        source := FindingSource.KUBERNETES_API_SERVER,
        aggregation_key := "alert_on_hpa_reached_limit_2",
        enrichments := [] }
    let scale_effects := scale_hpa_callback_2 { hpa := some hpa } param
    let enriched : Finding :=
      { finding with enrichments :=
          [[Block.MarkdownBlock ("On average, pods scaled under this HPA are using *"
              ++ toString avg_cpu ++ " %* of the requested cpu."),
            Block.pyNone]] }
    [logline] ++ scale_effects ++ [HpaEffect.finding enriched]

/-- The `maxReplicas` values persisted through the cluster API by an
effect trace, in order. -/
def persistedMaxes (tr : List HpaEffect) : List Int :=
  tr.filterMap (fun e => match e with
    | HpaEffect.replaceNamespacedHorizontalPodAutoscaler _ _ h => some h.spec.maxReplicas
    | _ => none)

/-- The Findings added to the event by an effect trace, in order. -/
def findingsOf (tr : List HpaEffect) : List Finding :=
  tr.filterMap (fun e => match e with
    | HpaEffect.finding f => some f
    | _ => none)

end HpaActions

namespace GitPush

/-- The Git file path `path ++ "/" ++ file` that `git_push_changes`
uses for an object with the given namespace and name (source lines
107-118): the file name is `git_safe_name(name) + ".yaml"`, the
service directory uses the part of that file name after its first
hyphen (note: this keeps the `".yaml"` suffix, which `git_safe_name`
turns into `"-yaml"`), and the `api` branch is chosen exactly when
that part contains `"api"` case-insensitively. -/
def gitAuditFilePath (ns : Option String) (objName : String) : String :=
  let name := git_safe_name objName ++ ".yaml"
  let new_name := pyPartition2 name '-'
  let role := if containsSub "api".data (pyLower new_name).data then "api" else "consumer"
  git_safe_name (pyOrStr ns "None") ++ "/" ++ role ++ "/" ++ git_safe_name new_name
    ++ "/" ++ "main" ++ "/" ++ "patches" ++ "/" ++ name

/-- Shared example audit parameters. -/
def exParams : GitAuditParams :=
  { cluster_name := "test-cluster", git_url := "git@github.com:x/audit.git",
    git_key := "PLAINKEY", ignored_changes := [] }

/-- Example object for the path-layout claim: the spec's own example
resource name and namespace. -/
def exC1Obj : K8sObj :=
  { kind := "Deployment",
    metadata := { name := "therma-account-api-service", ns := some "beta", ownerReferences := [] },
    spec := [] }

/-- A create event for `exC1Obj`. -/
def exC1Event : KubernetesAnyChangeEvent :=
  { obj := exC1Obj, old_obj := none, operation := K8sOperationType.CREATE }

/-- Example updated object with a changed spec. -/
def exC2New : K8sObj :=
  { kind := "Deployment",
    metadata := { name := "therma-demo-service", ns := some "beta", ownerReferences := [] },
    spec := [("replicas", "3")] }

/-- The previous version of `exC2New` (spec differs). -/
def exC2Old : K8sObj :=
  { exC2New with spec := [("replicas", "2")] }

/-- An update event with a non-ignored spec change. -/
def exC2Event : KubernetesAnyChangeEvent :=
  { obj := exC2New, old_obj := some exC2Old, operation := K8sOperationType.UPDATE }

/-- An event whose object kind is neither skipped nor owned. -/
def exC6Event : KubernetesAnyChangeEvent :=
  { obj := { kind := "Service",
             metadata := { name := "therma-pay-service", ns := some "beta", ownerReferences := [] },
             spec := [] },
    old_obj := none, operation := K8sOperationType.DELETE }

/-- An event with a kind from `skipped_kinds`. -/
def exC8Event : KubernetesAnyChangeEvent :=
  { obj := { kind := "Event",
             metadata := { name := "evt", ns := none, ownerReferences := [] },
             spec := [] },
    old_obj := none, operation := K8sOperationType.CREATE }

end GitPush

namespace HpaActions

/-- An HPA at its replica ceiling (`desired = max = 5`) whose current
replica count just changed (2 to 3). -/
def exHpaFire : HorizontalPodAutoscaler :=
  { metadata := { name := "web", ns := "prod" },
    spec := { maxReplicas := 5 },
    status := { currentReplicas := 3, desiredReplicas := 5, currentCPUUtilizationPercentage := 93 } }

/-- The previous state of `exHpaFire` (different `currentReplicas`). -/
def exHpaOld : HorizontalPodAutoscaler :=
  { exHpaFire with status := { exHpaFire.status with currentReplicas := 2 } }

/-- A change event on which `alert_on_hpa_reached_limit_2` fires. -/
def exFireEvent : HorizontalPodAutoscalerChangeEvent :=
  { obj := exHpaFire, old_obj := exHpaOld }

/-- A change event whose `currentReplicas` did not change. -/
def exCalmEvent : HorizontalPodAutoscalerChangeEvent :=
  { obj := exHpaFire, old_obj := exHpaFire }

/-- A firing change event for the suggestion-formula claim
(`maxReplicas = 5`). -/
def exC5Event : HorizontalPodAutoscalerChangeEvent :=
  { obj := exHpaFire, old_obj := exHpaOld }

/-- An example HPA for the scale-handler claim. -/
def exHpa9 : HorizontalPodAutoscaler :=
  { metadata := { name := "billing", ns := "beta" },
    spec := { maxReplicas := 4 },
    status := { currentReplicas := 4, desiredReplicas := 4, currentCPUUtilizationPercentage := 80 } }

end HpaActions

namespace HpaActions

/-- `mathCeilDiv100` is the exact rational ceiling of `k / 100`. -/
theorem mathCeilDiv100_eq (k : Int) : mathCeilDiv100 k = Int.ceil ((k : ℚ) / 100) := by
  rw [mathCeilDiv100]
  rw [show ((k : ℚ) / 100) = -(((-k : Int) : ℚ) / ((100 : ℕ) : ℚ)) by push_cast; ring]
  rw [Int.ceil_neg]
  rw [Rat.floor_intCast_div_natCast]
  norm_num

end HpaActions

namespace GitPush

/-- Every character emitted by `subRunsAux` is in the safe class. -/
theorem subRunsAux_safe (l : List Char) :
    ∀ (b : Bool), ∀ c ∈ subRunsAux b l, gitSafeChar c = true := by
  induction l with
  | nil =>
    intro b c hc
    simp [subRunsAux] at hc
  | cons a as ih =>
    intro b c hc
    by_cases ha : gitSafeChar a
    · rw [subRunsAux, if_pos ha] at hc
      rcases List.mem_cons.mp hc with h | h
      · rw [h]; exact ha
      · exact ih false c h
    · rw [subRunsAux, if_neg ha] at hc
      cases b with
      | true =>
        simp only [if_pos rfl] at hc
        exact ih true c hc
      | false =>
        simp only [Bool.false_eq_true, if_neg] at hc
        rcases List.mem_cons.mp hc with h | h
        · rw [h]; decide
        · exact ih true c h

/-- `subRunsAux` leaves a list of safe characters unchanged. -/
theorem subRunsAux_id (l : List Char) (h : ∀ c ∈ l, gitSafeChar c = true) :
    ∀ (b : Bool), subRunsAux b l = l := by
  induction l with
  | nil => intro b; rfl
  | cons a as ih =>
    intro b
    have ha : gitSafeChar a = true := h a (List.mem_cons_self a as)
    have has : ∀ c ∈ as, gitSafeChar c = true := fun c hc => h c (List.mem_cons_of_mem a hc)
    rw [subRunsAux, if_pos ha, ih has false]

/-- The source's flag-based `subRunsAux` agrees with the spec's
maximal-run description: with the flag down it equals `subRunsSpec`,
and with the flag up (inside a run whose hyphen is already emitted) it
equals `subRunsSpec` of the input with the rest of the run dropped. -/
theorem subRunsAux_eq_subRunsSpec (l : List Char) :
    subRunsAux false l = subRunsSpec l ∧
    subRunsAux true l = subRunsSpec (l.dropWhile (fun d => !gitSafeChar d)) := by
  induction l with
  | nil => constructor <;> simp [subRunsAux, subRunsSpec]
  | cons c cs ih =>
    by_cases hc : gitSafeChar c
    · constructor
      · rw [subRunsAux, if_pos hc, subRunsSpec, if_pos hc, ih.1]
      · rw [subRunsAux, if_pos hc, List.dropWhile_cons, hc]
        simp only [Bool.not_true, Bool.false_eq_true, if_false]
        rw [subRunsSpec, if_pos hc, ih.1]
    · have hc' : gitSafeChar c = false := by
        simpa using hc
      constructor
      · rw [subRunsAux, if_neg hc]
        simp only [Bool.false_eq_true, if_false]
        rw [subRunsSpec, if_neg hc, ih.2]
      · rw [subRunsAux, if_neg hc]
        simp only [if_true]
        rw [List.dropWhile_cons, hc']
        simp only [Bool.not_false, if_true]
        exact ih.2

/-- Claim C7: `git_safe_name` returns only characters in
`[0-9a-zA-Z-]`, leaves inputs made of such characters unchanged,
replaces each maximal run of other characters with a single hyphen
(its output coincides with the spec-level `subRunsSpec`, and the
multi-character runs of `"my__service!?1"` collapse to single
hyphens), and maps `"my_service!1"` to `"my-service-1"`. -/
theorem c7_git_safe_name_spec (s : String) :
    (∀ c ∈ (git_safe_name s).data, gitSafeChar c = true) ∧
    ((∀ c ∈ s.data, gitSafeChar c = true) → git_safe_name s = s) ∧
    (git_safe_name s).data = subRunsSpec s.data ∧
    git_safe_name "my__service!?1" = "my-service-1" ∧
    git_safe_name "my_service!1" = "my-service-1" := by
  refine ⟨?_, ?_, ?_, by decide, by decide⟩
  · intro c hc
    exact subRunsAux_safe s.data false c hc
  · intro h
    show String.mk (subRunsAux false s.data) = s
    rw [subRunsAux_id s.data h false]
  · exact (subRunsAux_eq_subRunsSpec s.data).1

/-- Claim C7 witness: the general theorem applied at a concrete input. -/
theorem c7_git_safe_name_spec_witness : git_safe_name "abc-123" = "abc-123" :=
  (c7_git_safe_name_spec "abc-123").2.1 (by decide)

/-- Claim C8: an event whose kind is in the skip list, or whose object
has a non-empty ownerReferences list, produces no effect at all. -/
theorem c8_skip_no_effects (event : KubernetesAnyChangeEvent) (action_params : GitAuditParams)
    (h : skipped_kinds.contains event.obj.kind = true ∨ event.obj.metadata.ownerReferences ≠ []) :
    git_push_changes event action_params = [] := by
  rcases h with h | h
  · have h' : event.obj.kind ∈ skipped_kinds := by simpa using h
    simp [git_push_changes, git_push_changes_body, h']
  · by_cases hk : event.obj.kind ∈ skipped_kinds
    · simp [git_push_changes, git_push_changes_body, hk]
    · have hl : (event.obj.metadata.ownerReferences.length != 0) = true := by
        simp [h]
      simp [git_push_changes, git_push_changes_body, hk, hl]

/-- Claim C8 witness: a concrete event of kind `"Event"` produces no
effect. -/
theorem c8_skip_no_effects_witness : git_push_changes exC8Event exParams = [] :=
  c8_skip_no_effects exC8Event exParams (Or.inl (by decide))

/-- Claim C6: on every invocation that passes the kind and
owner-reference checks, the decoded `git_key` secret is interpolated
into an info-level log line. -/
theorem c6_git_key_logged (event : KubernetesAnyChangeEvent) (action_params : GitAuditParams)
    (h1 : skipped_kinds.contains event.obj.kind = false)
    (h2 : event.obj.metadata.ownerReferences = []) :
    Effect.log LogLevel.info ("Key value: " ++ action_params.git_key)
      ∈ git_push_changes event action_params := by
  have hl : (event.obj.metadata.ownerReferences.length != 0) = false := by
    simp [h2]
  unfold git_push_changes git_push_changes_body
  rw [h1, hl]
  simp only [Bool.false_eq_true, if_false]
  cases hop : event.operation
  · simp [List.mem_append]
  · simp [List.mem_append]
  · by_cases hd : obj_diff event.obj.spec
        (match event.old_obj with
          | some o => some o.spec
          | none => none)
        action_params.ignored_changes = true <;>
      simp [hd, str_items, get_yaml_dict, List.mem_append]

/-- Claim C6 witness: the theorem applied at a concrete event. -/
theorem c6_git_key_logged_witness :
    Effect.log LogLevel.info ("Key value: " ++ exParams.git_key)
      ∈ git_push_changes exC6Event exParams :=
  c6_git_key_logged exC6Event exParams (by decide) rfl

/-- Claim C2 (code bug): on an update event with a non-ignored spec
diff, the code reaches `hikaru.get_yaml(event.obj).items()`; the YAML
string has no `.items`, so an `AttributeError` is raised, caught at
the top level and logged.  The trace therefore ends in the error log
and contains no `commit_push` — no commit happens and no metadata
fields are stripped, although the filtered diff was non-empty. -/
theorem c2_update_diff_commits_nothing :
    obj_diff exC2New.spec (some exC2Old.spec) exParams.ignored_changes = true ∧
    git_push_changes exC2Event exParams =
      [Effect.log LogLevel.info ("Key value: " ++ exParams.git_key),
       Effect.pull_rebase,
       Effect.log LogLevel.info "Pulling possible changes",
       Effect.log LogLevel.error "git audit error"] := by
  decide

/-- Claim C1 counterexample: for the spec's own example (name
`"therma-account-api-service"`, namespace `"beta"`), the file path the
code produces is
`beta/api/account-api-service-yaml/main/patches/therma-account-api-service.yaml`,
not `beta/api/account-service/main/patches/account-api-service.yaml`
as stated. -/
theorem c1_path_counterexample :
    filePathsOf (git_push_changes exC1Event exParams) =
      ["beta/api/account-api-service-yaml/main/patches/therma-account-api-service.yaml"] ∧
    filePathsOf (git_push_changes exC1Event exParams) ≠
      ["beta/api/account-service/main/patches/account-api-service.yaml"] := by
  decide

/-- Claim C1 (amended): for every create or delete event that passes
the skip checks, the single Git file path touched is
`gitAuditFilePath`:
`{git_safe_name(ns)}/{api|consumer}/{git_safe_name(rest)}/main/patches/{git_safe_name(name)}.yaml`,
where `rest` is the part of `git_safe_name(name) + ".yaml"` after its
first hyphen (retaining a sanitized `-yaml` suffix) and the `api`
branch is chosen when `rest` contains `"api"` case-insensitively. -/
theorem c1_path_layout (event : KubernetesAnyChangeEvent) (action_params : GitAuditParams)
    (h1 : skipped_kinds.contains event.obj.kind = false)
    (h2 : event.obj.metadata.ownerReferences = [])
    (h3 : event.operation = K8sOperationType.CREATE ∨
          event.operation = K8sOperationType.DELETE) :
    filePathsOf (git_push_changes event action_params) =
      [gitAuditFilePath event.obj.metadata.ns event.obj.metadata.name] := by
  have hl : (event.obj.metadata.ownerReferences.length != 0) = false := by
    simp [h2]
  rcases h3 with h3 | h3 <;>
  · unfold git_push_changes git_push_changes_body
    rw [h1, hl, h3]
    simp only [Bool.false_eq_true, if_false]
    unfold gitAuditFilePath filePathsOf
    by_cases hc : containsSub "api".data
        (pyLower (pyPartition2 (git_safe_name event.obj.metadata.name ++ ".yaml") '-')).data <;>
      simp [hc, List.filterMap]

/-- Claim C1 witness: the amended theorem applied at the spec's example
event. -/
theorem c1_path_layout_witness :
    filePathsOf (git_push_changes exC1Event exParams) =
      [gitAuditFilePath exC1Event.obj.metadata.ns exC1Event.obj.metadata.name] :=
  c1_path_layout exC1Event exParams (by decide) rfl (Or.inl rfl)

end GitPush

namespace HpaActions

/-- Claim C9: when the event carries an HPA, `scale_hpa_callback`
persists it with `spec.maxReplicas` set to the requested value via the
cluster API and emits exactly one INFO Finding whose title contains
that value. -/
theorem c9_scale_sets_max_and_notifies (event : HorizontalPodAutoscalerEvent)
    (params : ScaleHPAParams) (hpa0 : HorizontalPodAutoscaler)
    (hh : event.get_horizontalpodautoscaler = some hpa0) :
    ∃ hpa1 f,
      scale_hpa_callback event params =
        [HpaEffect.replaceNamespacedHorizontalPodAutoscaler hpa0.metadata.name hpa0.metadata.ns hpa1,
         HpaEffect.finding f] ∧
      hpa1.spec.maxReplicas = params.max_replicas ∧
      f.severity = FindingSeverity.INFO ∧
      ∃ a b, f.title = a ++ toString params.max_replicas ++ b := by
  refine ⟨{ hpa0 with spec := { hpa0.spec with maxReplicas := params.max_replicas } },
          { title := "Max replicas for HPA *" ++ hpa0.metadata.name ++ "* in namespace *"
              ++ hpa0.metadata.ns ++ "* updated to: *" ++ toString params.max_replicas ++ "*",
            severity := FindingSeverity.INFO,
            source := FindingSource.PROMETHEUS,
            aggregation_key := "scale_hpa_callback",
            enrichments := [] },
          ?_, rfl, rfl, ?_⟩
  · rw [scale_hpa_callback, hh]
  · exact ⟨"Max replicas for HPA *" ++ hpa0.metadata.name ++ "* in namespace *"
      ++ hpa0.metadata.ns ++ "* updated to: *", "*", rfl⟩

/-- Claim C9 witness: the theorem applied at a concrete event and
target value. -/
theorem c9_scale_sets_max_and_notifies_witness :
    ∃ hpa1 f,
      scale_hpa_callback { hpa := some exHpa9 } { max_replicas := 7 } =
        [HpaEffect.replaceNamespacedHorizontalPodAutoscaler exHpa9.metadata.name exHpa9.metadata.ns hpa1,
         HpaEffect.finding f] ∧
      hpa1.spec.maxReplicas = (7 : Int) ∧
      f.severity = FindingSeverity.INFO ∧
      ∃ a b, f.title = a ++ toString (7 : Int) ++ b :=
  c9_scale_sets_max_and_notifies { hpa := some exHpa9 } { max_replicas := 7 } exHpa9 rfl

/-- Claim C10: when the event carries no HPA, the scale handler logs a
line and performs nothing else: no API call, no Finding. -/
theorem c10_missing_hpa_logs_only (event : HorizontalPodAutoscalerEvent)
    (params : ScaleHPAParams) (h : event.get_horizontalpodautoscaler = none) :
    scale_hpa_callback event params =
      [HpaEffect.log ("scale_hpa_callback - no hpa on event: " ++ eventStr event)] := by
  rw [scale_hpa_callback, h]

/-- Claim C10 witness: the theorem applied at a concrete empty event. -/
theorem c10_missing_hpa_logs_only_witness :
    scale_hpa_callback { hpa := none } { max_replicas := 3 } =
      [HpaEffect.log ("scale_hpa_callback - no hpa on event: "
        ++ eventStr { hpa := none })] :=
  c10_missing_hpa_logs_only { hpa := none } { max_replicas := 3 } rfl

/-- Claim C4: `alert_on_hpa_reached_limit_2` adds a Finding only when
the current replica count changed and the desired count equals
`maxReplicas`; when either condition fails it produces only its
opening log line (no Finding, no API call). -/
theorem c4_alert_fires_only_on_change_at_limit (event : HorizontalPodAutoscalerChangeEvent)
    (action_params : HPALimitParams) :
    ((findingsOf (alert_on_hpa_reached_limit_2 event action_params) ≠ []) →
      (event.obj.status.currentReplicas ≠ event.old_obj.status.currentReplicas ∧
       event.obj.status.desiredReplicas = event.obj.spec.maxReplicas)) ∧
    ((event.obj.status.currentReplicas = event.old_obj.status.currentReplicas ∨
      event.obj.status.desiredReplicas ≠ event.obj.spec.maxReplicas) →
      alert_on_hpa_reached_limit_2 event action_params =
        [HpaEffect.log ("running alert_on_hpa_reached_limit: " ++ event.obj.metadata.name
          ++ " ns: " ++ event.obj.metadata.ns)]) := by
  constructor
  · intro hne
    by_cases hcur : event.obj.status.currentReplicas = event.old_obj.status.currentReplicas
    · exact absurd (by simp [alert_on_hpa_reached_limit_2, hcur, findingsOf]) hne
    · by_cases hdes : event.obj.status.desiredReplicas = event.obj.spec.maxReplicas
      · exact ⟨hcur, hdes⟩
      · exact absurd (by simp [alert_on_hpa_reached_limit_2, hcur, hdes, findingsOf]) hne
  · rintro (h | h)
    · simp [alert_on_hpa_reached_limit_2, h]
    · by_cases hcur : event.obj.status.currentReplicas = event.old_obj.status.currentReplicas
      · simp [alert_on_hpa_reached_limit_2, hcur]
      · simp [alert_on_hpa_reached_limit_2, hcur, h]

/-- Claim C4 witness: on an event with an unchanged replica count the
handler produces only the log line. -/
theorem c4_alert_fires_only_on_change_at_limit_witness :
    alert_on_hpa_reached_limit_2 exCalmEvent { increase_pct := 20 } =
      [HpaEffect.log ("running alert_on_hpa_reached_limit: " ++ exCalmEvent.obj.metadata.name
        ++ " ns: " ++ exCalmEvent.obj.metadata.ns)] :=
  (c4_alert_fires_only_on_change_at_limit exCalmEvent { increase_pct := 20 }).2 (Or.inl rfl)

/-- Claim C5: whenever the limit-reached handler fires, the single
`maxReplicas` value it persists is the exact integer ceiling
`ceil((increase_pct + 100) * current_max / 100)`; for
`current_max = 5` and `increase_pct = 20` that value is 6. -/
theorem c5_suggested_ceiling (event : HorizontalPodAutoscalerChangeEvent)
    (action_params : HPALimitParams)
    (h1 : event.obj.status.currentReplicas ≠ event.old_obj.status.currentReplicas)
    (h2 : event.obj.status.desiredReplicas = event.obj.spec.maxReplicas) :
    persistedMaxes (alert_on_hpa_reached_limit_2 event action_params) =
      [Int.ceil ((((action_params.increase_pct + 100) * event.obj.spec.maxReplicas : Int) : ℚ) / 100)] ∧
    persistedMaxes (alert_on_hpa_reached_limit_2 exC5Event { increase_pct := 20 }) = [(6 : Int)] := by
  constructor
  · rw [← mathCeilDiv100_eq]
    simp [alert_on_hpa_reached_limit_2, h1, h2, scale_hpa_callback_2,
      HorizontalPodAutoscalerEvent.get_horizontalpodautoscaler, persistedMaxes]
  · decide

/-- Claim C5 witness: the theorem applied at the concrete firing event
with `maxReplicas = 5` and `increase_pct = 20`. -/
theorem c5_suggested_ceiling_witness :
    persistedMaxes (alert_on_hpa_reached_limit_2 exC5Event { increase_pct := 20 }) =
      [Int.ceil ((((((20 : Int)) + 100) * exC5Event.obj.spec.maxReplicas : Int) : ℚ) / 100)] ∧
    persistedMaxes (alert_on_hpa_reached_limit_2 exC5Event { increase_pct := 20 }) = [(6 : Int)] :=
  c5_suggested_ceiling exC5Event { increase_pct := 20 } (by decide) (by decide)

/-- Claim C3 (code bug): when the limit-reached alert fires, the code
calls `scale_hpa_callback_2(event, param)` while building the
enrichment block list, so the HPA is patched to the suggested
`maxReplicas` (6 here) and the scale Finding is emitted immediately at
alert time; the enrichment holds a Markdown block and the call's
`None` return value, not an invocable callback. -/
theorem c3_alert_scales_eagerly :
    alert_on_hpa_reached_limit_2 exFireEvent { increase_pct := 20 } =
      [HpaEffect.log "running alert_on_hpa_reached_limit: web ns: prod",
       HpaEffect.replaceNamespacedHorizontalPodAutoscaler "web" "prod"
         { metadata := { name := "web", ns := "prod" },
           spec := { maxReplicas := 6 },
           status := { currentReplicas := 3, desiredReplicas := 5,
                       currentCPUUtilizationPercentage := 93 } },
       HpaEffect.finding
         { title := "Max replicas for HPA *web* in namespace *prod* updated to: *6*",
           severity := FindingSeverity.INFO, source := FindingSource.PROMETHEUS,
           aggregation_key := "scale_hpa_callback_2", enrichments := [] },
       HpaEffect.finding
         { title := "HPA-TEST *web* in namespace *prod* reached max replicas: *5*",
           severity := FindingSeverity.LOW, source := FindingSource.KUBERNETES_API_SERVER,
           aggregation_key := "alert_on_hpa_reached_limit_2",
           enrichments := [[Block.MarkdownBlock
             "On average, pods scaled under this HPA are using *93 %* of the requested cpu.",
             Block.pyNone]] }] := by
  decide

end HpaActions
